import Mathlib

/-! Weather dashboard (`src/App.js`)

A shallow embedding of the pure helpers (`getWeatherIcon`, `getWindDirection`), of the
state held by `WeatherDashboard` together with the writes performed by `fetchWeatherData`,
of the view selection at the top of `WeatherDashboard`, and of `LocationSearch.handleSubmit`.

JavaScript values are represented as follows.
* A weather code is an `Int`; the object `weatherIcons` is an association list keyed by
  the integer codes it is written with.
* A wind speed is an exact rational (`ℚ`).
* `null` / `undefined` is `none`; `a || b` and `if (x)` follow JavaScript truthiness, under
  which `null`, `false`, `0` and the empty string are falsy and every object is truthy.
* The body of a forecast response is any JSON value: `fetchWeatherData` stores what
  `response.json()` resolves to without looking at it.
-/

namespace WeatherWebsite

/-! ## Condition catalogue -/

/-- The object literal `weatherIcons` of `getWeatherIcon`, entry by entry, in source order. -/
def weatherIcons : List (Int × String) :=
  [ (0, "☀️"),
    (1, "🌤️"),
    (2, "⛅"),
    (3, "☁️"),
    (45, "🌫️"),
    (48, "🌫️"),
    (51, "🌧️"),
    (53, "🌧️"),
    (55, "🌧️"),
    (61, "🌧️"),
    (63, "🌧️"),
    (65, "🌧️"),
    (71, "❄️"),
    (73, "❄️"),
    (75, "❄️"),
    (77, "❄️"),
    (80, "🌧️"),
    (81, "🌧️"),
    (82, "🌧️"),
    (85, "❄️"),
    (86, "❄️"),
    (95, "⛈️"),
    (96, "⛈️"),
    (99, "⛈️") ]

/-- JavaScript truthiness of a value that is a string or `undefined` / `null`:
only a non-empty string is truthy. -/
def truthy : Option String → Bool
  | none => false
  | some m => !(m == "")

/-- The expression `a || b` for `a` a string or `undefined` and `b` a string. -/
def jsOr (a : Option String) (b : String) : String :=
  match a with
  | some x => if truthy (some x) then x else b
  | none => b

/-- The closure `getWeatherIcon` of `WeatherIcon`: `weatherIcons[weatherCode] || '🌈'`. -/
def getWeatherIcon (weatherCode : Int) : String :=
  jsOr (weatherIcons.lookup weatherCode) "🌈"

/-- The function `getWindDirection`: a ladder of `<` tests, first match wins. -/
def getWindDirection (speed : ℚ) : String :=
  if speed < 1 then "Calm"
  else if speed < 5 then "Light Breeze"
  else if speed < 11 then "Gentle Breeze"
  else if speed < 19 then "Moderate Breeze"
  else if speed < 28 then "Fresh Breeze"
  else if speed < 38 then "Strong Breeze"
  else "High Wind"

/-- The seven wind labels in increasing order of strength. -/
def windLabels : List String :=
  ["Calm", "Light Breeze", "Gentle Breeze", "Moderate Breeze", "Fresh Breeze",
   "Strong Breeze", "High Wind"]

/-- Position of a label in `windLabels` (7 for a string that is not a wind label). -/
def labelRank (label : String) : Nat :=
  windLabels.indexOf label

/-! ## Dashboard state -/

/-- The object held in the `location` state of `WeatherDashboard`. -/
structure Location where
  latitude : ℚ
  longitude : ℚ
  name : String
  deriving DecidableEq, Repr

/-- The `current_weather` object of a forecast payload; a field that is absent is `none`. -/
structure CurrentWeather where
  temperature : Option ℚ
  windspeed : Option ℚ
  weathercode : Option Int
  deriving DecidableEq, Repr

/-- The `hourly` object of a forecast payload, with the arrays the view reads; an array
that is absent is `none`. -/
structure Hourly where
  time : Option (List String)
  temperature_2m : Option (List ℚ)
  relativehumidity_2m : Option (List ℚ)
  precipitation_probability : Option (List ℚ)
  weathercode : Option (List Int)
  deriving DecidableEq, Repr

/-- The `daily` object of a forecast payload, with the arrays the view reads; an array
that is absent is `none`. -/
structure Daily where
  sunrise : Option (List String)
  sunset : Option (List String)
  uv_index_max : Option (List ℚ)
  temperature_2m_max : Option (List ℚ)
  temperature_2m_min : Option (List ℚ)
  deriving DecidableEq, Repr

/-- A JSON object read as a forecast: each of `current_weather`, `hourly`, `daily` is
`none` when the object lacks it (or holds `null` there). -/
structure ForecastSnapshot where
  current_weather : Option CurrentWeather
  hourly : Option Hourly
  daily : Option Daily
  deriving DecidableEq, Repr

/-- What `response.json()` can resolve to, and so what `weatherData` can hold: `null`, a
boolean, a number, a string, an array (its elements are never read), or an object. -/
inductive Payload where
  | null
  | boolean (b : Bool)
  | number (n : ℚ)
  | text (t : String)
  | array
  | object (o : ForecastSnapshot)
  deriving DecidableEq, Repr

/-- JavaScript truthiness of a JSON value. -/
def Payload.truthy : Payload → Bool
  | .null => false
  | .boolean b => b
  | .number n => !(n == 0)
  | .text t => !(t == "")
  | .array => true
  | .object _ => true

/-- The four `useState` cells of `WeatherDashboard`. For `error`, `none` is `null`. -/
structure DashboardState where
  location : Location
  weatherData : Payload
  loading : Bool
  error : Option String
  deriving DecidableEq, Repr

/-- The initial values passed to `useState`. -/
def initialState : DashboardState :=
  { location := { latitude := 407128 / 10000, longitude := -740060 / 10000,
                  name := "New York City" },
    weatherData := .null,
    loading := true,
    error := none }

/-- What the dashboard's handlers do, in program order: the four state setters, the
forecast request `fetch(url)` and the body parse `response.json()`. -/
inductive Effect where
  | setLocation (l : Location)
  | setWeatherData (d : Payload)
  | setLoading (b : Bool)
  | setError (m : String)
  | fetchForecast (latitude longitude : ℚ)
  | parseBody
  deriving DecidableEq, Repr

/-- A state setter overwrites its cell; the two calls to the network write no cell. -/
def applyEffect (s : DashboardState) : Effect → DashboardState
  | .setLocation l => { s with location := l }
  | .setWeatherData d => { s with weatherData := d }
  | .setLoading b => { s with loading := b }
  | .setError m => { s with error := some m }
  | .fetchForecast _ _ => s
  | .parseBody => s

/-- The state after a sequence of effects. -/
def runEffects (s : DashboardState) (effects : List Effect) : DashboardState :=
  effects.foldl applyEffect s

/-- The forecast response: its `ok` flag and what `response.json()` settles to
(the parsed body, whatever JSON value it is, or the message of the error it rejects
with). -/
structure Response where
  ok : Bool
  json : Except String Payload

/-- How `await fetch(url)` settles: it rejects with an error carrying `message`, or it
resolves to a response. -/
inductive FetchResult where
  | rejected (message : String)
  | resolved (response : Response)

/-- The `catch (err)` block of `fetchWeatherData`: `setError(err.message); setLoading(false)`. -/
def catchBlock (message : String) : List Effect :=
  [.setError message, .setLoading false]

/-- The part of `fetchWeatherData` that runs before `await fetch(url)` suspends it, for the
`location` the effect closed over. -/
def fetchWeatherDataStart (location : Location) : List Effect :=
  [.setLoading true, .fetchForecast location.latitude location.longitude]

/-- The part of `fetchWeatherData` that runs once `fetch(url)` has settled. -/
def fetchWeatherDataResume : FetchResult → List Effect
  | .rejected message => catchBlock message
  | .resolved response =>
    if !response.ok then catchBlock "Weather data fetch failed"
    else
      .parseBody ::
        (match response.json with
         | .error message => catchBlock message
         | .ok data => [.setWeatherData data, .setLoading false])

/-- A whole run of `fetchWeatherData` with nothing interleaved. -/
def fetchWeatherData (location : Location) (result : FetchResult) : List Effect :=
  fetchWeatherDataStart location ++ fetchWeatherDataResume result

/-- The function `handleLocationChange`: `setLocation(newLocation)`. -/
def handleLocationChange (newLocation : Location) : List Effect :=
  [.setLocation newLocation]

/-- What `WeatherDashboard` returns: one of the two screens, `null` (a blank page), the
dashboard markup for a location and a forecast object, or no view at all because
evaluating the markup throws a `TypeError`. -/
inductive View where
  | loadingScreen
  | errorScreen (message : String)
  | blank
  | dashboard (location : Location) (weatherData : ForecastSnapshot)
  | crash
  deriving DecidableEq, Repr

/-- The property reads of the dashboard markup that throw when their object is
`undefined` or `null`, in source order: `weatherData.current_weather.weathercode`; under
`weatherData.daily` the first entries of `temperature_2m_max`, `temperature_2m_min`,
`uv_index_max`, `sunrise`, `sunset`; under `weatherData.hourly` the first entries of
`relativehumidity_2m` and `precipitation_probability`, then `time.slice(0, 12)`, and for
each of its entries `temperature_2m[index]` and `weathercode[index]`. The result is `none`
when one of them throws. An index past the end of an array reads `undefined` and does not
throw. -/
def markupReads (o : ForecastSnapshot) : Option Unit := do
  let _ ← o.current_weather
  let daily ← o.daily
  let _ ← daily.temperature_2m_max
  let _ ← daily.temperature_2m_min
  let _ ← daily.uv_index_max
  let _ ← daily.sunrise
  let _ ← daily.sunset
  let hourly ← o.hourly
  let _ ← hourly.relativehumidity_2m
  let _ ← hourly.precipitation_probability
  let time ← hourly.time
  if (time.take 12).isEmpty then pure ()
  else do
    let _ ← hourly.temperature_2m
    let _ ← hourly.weathercode
    pure ()

/-- The dashboard markup, reached with a truthy `weatherData`. On a value that is not an
object `weatherData.current_weather` is `undefined` and the first read throws. -/
def dashboardMarkup (location : Location) : Payload → View
  | .object o =>
    match markupReads o with
    | some _ => .dashboard location o
    | none => .crash
  | _ => .crash

/-- The three early returns of `WeatherDashboard` followed by the dashboard markup. -/
def render (s : DashboardState) : View :=
  if s.loading then .loadingScreen
  else if truthy s.error then .errorScreen (s.error.getD "")
  else if !s.weatherData.truthy then .blank
  else dashboardMarkup s.location s.weatherData

/-- The events that write the dashboard state. A fetch success is an ok response whose
body parses, to any JSON value `d`. A fetch failure is any of the ways the `catch` block
is entered with an error whose message is `message`. -/
inductive Event where
  | locationChange (l : Location)
  | fetchStart
  | fetchSuccess (d : Payload)
  | fetchFailure (message : String)
  deriving DecidableEq, Repr

/-- One event applied to a state. -/
def step (s : DashboardState) : Event → DashboardState
  | .locationChange l => runEffects s (handleLocationChange l)
  | .fetchStart => runEffects s (fetchWeatherDataStart s.location)
  | .fetchSuccess d => runEffects s (fetchWeatherDataResume (.resolved { ok := true, json := .ok d }))
  | .fetchFailure message => runEffects s (fetchWeatherDataResume (.rejected message))

/-- The state after a sequence of events. -/
def run (s : DashboardState) (events : List Event) : DashboardState :=
  events.foldl step s

/-- The result `fetchResult` is a forecast fetch failure carrying the error text `m`: the
request rejects with `m`, or the response is not ok (the text is then the fixed one of the
`throw`), or the body fails to parse with `m`. -/
def FailsWith (fetchResult : FetchResult) (m : String) : Prop :=
  fetchResult = .rejected m ∨
  (∃ body, fetchResult = .resolved { ok := false, json := body } ∧
    m = "Weather data fetch failed") ∨
  fetchResult = .resolved { ok := true, json := .error m }

/-! ## Location search -/

/-- One element of the `results` array of a geocoding response. -/
structure GeoResult where
  latitude : ℚ
  longitude : ℚ
  name : String
  deriving DecidableEq, Repr

/-- The parsed geocoding body; `results` is `none` when the field is absent. -/
structure GeoData where
  results : Option (List GeoResult)
  deriving DecidableEq, Repr

/-- How the two awaits of `handleSubmit` settle: the request rejects, the body parse
rejects, or the body parses to `data`. -/
inductive GeoOutcome where
  | fetchRejected (err : String)
  | jsonRejected (err : String)
  | parsed (data : GeoData)
  deriving DecidableEq, Repr

/-- What `handleSubmit` does to the outside: the geocoding request for the typed text,
the call of the `onLocationChange` prop, and the `console.error` of the `catch` block. -/
inductive SubmitEffect where
  | geocode (city : String)
  | onLocationChange (l : Location)
  | consoleError (err : String)
  deriving DecidableEq, Repr

/-- The handler `handleSubmit` of `LocationSearch`, for the typed text `city`. -/
def handleSubmit (city : String) : GeoOutcome → List SubmitEffect
  | .fetchRejected err => [.geocode city, .consoleError err]
  | .jsonRejected err => [.geocode city, .consoleError err]
  | .parsed data =>
    .geocode city ::
      (match data.results with
       | none => []
       | some results =>
         if h : results.length > 0 then
           let r := results[0]
           [.onLocationChange { latitude := r.latitude, longitude := r.longitude, name := r.name }]
         else [])

/-- What the dashboard does for one effect of the search box: `onLocationChange` is
`handleLocationChange`, and the changed `location` re-runs the fetch effect. -/
def dashboardReaction : SubmitEffect → List Effect
  | .onLocationChange l => handleLocationChange l ++ fetchWeatherDataStart l
  | .geocode _ => []
  | .consoleError _ => []

/-- Everything a submit does to the dashboard. -/
def submitEffects (city : String) (outcome : GeoOutcome) : List Effect :=
  (handleSubmit city outcome).flatMap dashboardReaction

/-- The geocoding outcome is not a match: no `results` field, an empty `results`, or a
rejected request or parse. -/
def NoMatch (outcome : GeoOutcome) : Prop :=
  outcome = .parsed { results := none } ∨ outcome = .parsed { results := some [] } ∨
  (∃ err, outcome = .fetchRejected err) ∨ (∃ err, outcome = .jsonRejected err)

/-! ## Concrete inputs -/

/-- A forecast object with one hourly and one daily entry. -/
def sampleSnapshot : ForecastSnapshot :=
  { current_weather := some { temperature := some 21, windspeed := some 5,
                              weathercode := some 0 },
    hourly := some { time := some ["2024-05-01T00:00"], temperature_2m := some [21],
                     relativehumidity_2m := some [40],
                     precipitation_probability := some [10], weathercode := some [0] },
    daily := some { sunrise := some ["2024-05-01T06:30"], sunset := some ["2024-05-01T21:00"],
                    uv_index_max := some [6], temperature_2m_max := some [24],
                    temperature_2m_min := some [12] } }

/-- The JSON object with no field at all. -/
def emptyObject : ForecastSnapshot :=
  { current_weather := none, hourly := none, daily := none }

/-- A second location. -/
def paris : Location :=
  { latitude := 4885341 / 100000, longitude := 23488 / 10000, name := "Paris" }

/-- The event is not a fetch failure whose message is empty. -/
def nonEmptyFailure : Event → Bool
  | .fetchFailure message => !(message == "")
  | _ => true

/-- The forecast object is complete: it carries `current_weather`, `daily` with its
five arrays and `hourly` with its five arrays. -/
def ForecastSnapshot.complete (o : ForecastSnapshot) : Bool :=
  o.current_weather.isSome &&
  (match o.daily with
   | none => false
   | some daily =>
     daily.temperature_2m_max.isSome && daily.temperature_2m_min.isSome &&
     daily.uv_index_max.isSome && daily.sunrise.isSome && daily.sunset.isSome) &&
  (match o.hourly with
   | none => false
   | some hourly =>
     hourly.time.isSome && hourly.temperature_2m.isSome &&
     hourly.relativehumidity_2m.isSome && hourly.precipitation_probability.isSome &&
     hourly.weathercode.isSome)

/-- The parsed body is a complete forecast object. -/
def Payload.complete : Payload → Bool
  | .object o => o.complete
  | _ => false

/-- The event is neither a fetch failure whose message is empty nor a fetch success whose
payload is not a complete forecast object. -/
def wellFormed : Event → Bool
  | .fetchFailure message => !(message == "")
  | .fetchSuccess d => d.complete
  | _ => true

/-- The state is loading, holds a truthy error, or holds a complete forecast object. -/
def Shown (s : DashboardState) : Prop :=
  s.loading = true ∨ truthy s.error = true ∨ s.weatherData.complete = true

/-! ## Helper lemmas -/

theorem lookup_eq_none_of_not_mem (l : List (Int × String)) (c : Int)
    (h : c ∉ l.map Prod.fst) : l.lookup c = none := by
  induction l with
  | nil => rfl
  | cons p l ih =>
    obtain ⟨k, v⟩ := p
    simp only [List.map_cons, List.mem_cons, not_or] at h
    have hk : (c == k) = false := by simpa using h.1
    simp only [List.lookup, hk]
    exact ih h.2

theorem lookup_weatherIcons_none (c : Int)
    (h : c ∉ [0, 1, 2, 3, 45, 48, 51, 53, 55, 61, 63, 65, 71, 73, 75, 77, 80, 81, 82, 85, 86,
      95, 96, 99]) :
    weatherIcons.lookup c = none :=
  lookup_eq_none_of_not_mem weatherIcons c h

theorem markupReads_of_complete (o : ForecastSnapshot) (h : o.complete = true) :
    markupReads o = some () := by
  obtain ⟨cw, hourly, daily⟩ := o
  cases cw with
  | none => simp [ForecastSnapshot.complete] at h
  | some cw =>
    cases daily with
    | none => simp [ForecastSnapshot.complete] at h
    | some daily =>
      cases hourly with
      | none => simp [ForecastSnapshot.complete] at h
      | some hourly =>
        obtain ⟨sunrise, sunset, uv, tmax, tmin⟩ := daily
        obtain ⟨time, temp, hum, prec, code⟩ := hourly
        simp only [ForecastSnapshot.complete, Option.isSome_some, Bool.true_and,
          Bool.and_eq_true, Option.isSome_iff_exists] at h
        obtain ⟨⟨⟨⟨⟨⟨_, rfl⟩, ⟨_, rfl⟩⟩, ⟨_, rfl⟩⟩, ⟨_, rfl⟩⟩, ⟨_, rfl⟩⟩,
          ⟨⟨⟨⟨_, rfl⟩, ⟨_, rfl⟩⟩, ⟨_, rfl⟩⟩, ⟨_, rfl⟩⟩, ⟨_, rfl⟩⟩ := h
        simp only [markupReads, Option.bind_eq_bind, Option.some_bind, Option.pure_def]
        split <;> rfl

theorem dashboardMarkup_of_complete (l : Location) (o : ForecastSnapshot)
    (h : o.complete = true) : dashboardMarkup l (.object o) = .dashboard l o := by
  simp [dashboardMarkup, markupReads_of_complete o h]

theorem step_shown (s : DashboardState) (e : Event) (hs : Shown s)
    (he : wellFormed e = true) : Shown (step s e) := by
  cases e with
  | locationChange l =>
    simpa [Shown, step, runEffects, handleLocationChange, applyEffect] using hs
  | fetchStart =>
    simp [Shown, step, runEffects, fetchWeatherDataStart, applyEffect]
  | fetchSuccess d =>
    have hd : d.complete = true := by simpa [wellFormed] using he
    simp [Shown, step, runEffects, fetchWeatherDataResume, applyEffect, hd]
  | fetchFailure m =>
    have hm : truthy (some m) = true := by simpa [wellFormed, truthy] using he
    simp [Shown, step, runEffects, fetchWeatherDataResume, catchBlock, applyEffect, hm]

theorem run_shown (events : List Event) (s : DashboardState) (hs : Shown s)
    (he : events.all wellFormed = true) : Shown (run s events) := by
  induction events generalizing s with
  | nil => exact hs
  | cons e rest ih =>
    simp only [List.all_cons, Bool.and_eq_true] at he
    exact ih (step s e) (step_shown s e hs he.1) he.2

theorem render_of_shown (s : DashboardState) (hs : Shown s) :
    render s = .loadingScreen ∨ (∃ m, render s = .errorScreen m) ∨
      (∃ l d, render s = .dashboard l d) := by
  by_cases hl : s.loading = true
  · left; simp [render, hl]
  · by_cases he : truthy s.error = true
    · right; left; exact ⟨s.error.getD "", by simp [render, hl, he]⟩
    · right; right
      rcases hs with h | h | h
      · exact absurd h hl
      · exact absurd h he
      · cases hw : s.weatherData with
        | object o =>
          rw [hw] at h
          exact ⟨s.location, o, by
            simp [render, hl, he, hw, Payload.truthy,
              dashboardMarkup_of_complete s.location o h]⟩
        | null => rw [hw] at h; simp [Payload.complete] at h
        | boolean b => rw [hw] at h; simp [Payload.complete] at h
        | number n => rw [hw] at h; simp [Payload.complete] at h
        | text t => rw [hw] at h; simp [Payload.complete] at h
        | array => rw [hw] at h; simp [Payload.complete] at h

theorem step_error_truthy (s : DashboardState) (e : Event) (hs : truthy s.error = true)
    (he : nonEmptyFailure e = true) : truthy (step s e).error = true := by
  cases e with
  | locationChange l =>
    simpa [step, runEffects, handleLocationChange, applyEffect] using hs
  | fetchStart =>
    simpa [step, runEffects, fetchWeatherDataStart, applyEffect] using hs
  | fetchSuccess d =>
    simpa [step, runEffects, fetchWeatherDataResume, applyEffect] using hs
  | fetchFailure m =>
    have hm : truthy (some m) = true := by simpa [nonEmptyFailure, truthy] using he
    simpa [step, runEffects, fetchWeatherDataResume, catchBlock, applyEffect] using hm

theorem run_error_truthy (events : List Event) (s : DashboardState)
    (hs : truthy s.error = true) (he : events.all nonEmptyFailure = true) :
    truthy (run s events).error = true := by
  induction events generalizing s with
  | nil => exact hs
  | cons e rest ih =>
    simp only [List.all_cons, Bool.and_eq_true] at he
    exact ih (step s e) (step_error_truthy s e hs he.1) he.2

theorem render_of_error_truthy (s : DashboardState) (hs : truthy s.error = true) :
    render s = .loadingScreen ∨ render s = .errorScreen (s.error.getD "") := by
  by_cases hl : s.loading = true
  · left; simp [render, hl]
  · right; simp [render, hl, hs]

/-! ## Condition catalogue: theorems -/

/-- C1: for every integer weather code, `getWeatherIcon` returns the glyph of the table
for the twenty-four known codes and the fallback glyph for every other integer; the code
0 yields the clear-sky glyph and not the fallback, and -1 and 999 yield the fallback. -/
theorem getWeatherIcon_table (c : Int) :
    getWeatherIcon c =
      (if c = 0 then "☀️"
       else if c = 1 then "🌤️"
       else if c = 2 then "⛅"
       else if c = 3 then "☁️"
       else if c ∈ [45, 48] then "🌫️"
       else if c ∈ [51, 53, 55, 61, 63, 65, 80, 81, 82] then "🌧️"
       else if c ∈ [71, 73, 75, 77, 85, 86] then "❄️"
       else if c ∈ [95, 96, 99] then "⛈️"
       else "🌈") ∧
    getWeatherIcon 0 = "☀️" ∧ getWeatherIcon 0 ≠ "🌈" ∧
    getWeatherIcon (-1) = "🌈" ∧ getWeatherIcon 999 = "🌈" := by
  refine ⟨?_, by decide, by decide, by decide, by decide⟩
  by_cases hk : c ∈ [0, 1, 2, 3, 45, 48, 51, 53, 55, 61, 63, 65, 71, 73, 75, 77, 80, 81, 82,
      85, 86, 95, 96, 99]
  · simp only [List.mem_cons, List.mem_singleton, List.not_mem_nil, or_false] at hk
    rcases hk with h | h | h | h | h | h | h | h | h | h | h | h | h | h | h | h | h | h |
      h | h | h | h | h | h <;> subst h <;> decide
  · rw [getWeatherIcon, lookup_weatherIcons_none c hk]
    simp only [List.mem_cons, List.mem_singleton, List.not_mem_nil, or_false, not_or] at hk
    simp [jsOr, hk]

/-- C2: for every speed, in particular every non-negative one, `getWindDirection` returns
exactly the label of the threshold ladder, each label on its half-open interval, so that
each of the boundary values 1, 5, 11, 19, 28, 38 falls in the higher bucket (5 gives
"Gentle Breeze", not "Light Breeze"). -/
theorem getWindDirection_ladder (s : ℚ) :
    ((getWindDirection s = "Calm" ↔ s < 1) ∧
     (getWindDirection s = "Light Breeze" ↔ 1 ≤ s ∧ s < 5) ∧
     (getWindDirection s = "Gentle Breeze" ↔ 5 ≤ s ∧ s < 11) ∧
     (getWindDirection s = "Moderate Breeze" ↔ 11 ≤ s ∧ s < 19) ∧
     (getWindDirection s = "Fresh Breeze" ↔ 19 ≤ s ∧ s < 28) ∧
     (getWindDirection s = "Strong Breeze" ↔ 28 ≤ s ∧ s < 38) ∧
     (getWindDirection s = "High Wind" ↔ 38 ≤ s)) ∧
    getWindDirection 1 = "Light Breeze" ∧ getWindDirection 5 = "Gentle Breeze" ∧
    getWindDirection 11 = "Moderate Breeze" ∧ getWindDirection 19 = "Fresh Breeze" ∧
    getWindDirection 28 = "Strong Breeze" ∧ getWindDirection 38 = "High Wind" := by
  refine ⟨?_, by decide, by decide, by decide, by decide, by decide, by decide⟩
  unfold getWindDirection
  split_ifs with h1 h5 h11 h19 h28 h38
  all_goals
    simp only [String.reduceEq, true_iff, false_iff, not_and, not_lt, not_le]
    refine ⟨?_, ?_, ?_, ?_, ?_, ?_, ?_⟩ <;> first
      | linarith
      | exact ⟨by linarith, by linarith⟩
      | (intro _; linarith)

/-- C3: `getWindDirection` is monotonic for the order
Calm < Light Breeze < Gentle Breeze < Moderate Breeze < Fresh Breeze < Strong Breeze <
High Wind (the rank of a label is its position in that list). -/
theorem getWindDirection_monotone (a b : ℚ) (hab : a ≤ b) :
    labelRank (getWindDirection a) ≤ labelRank (getWindDirection b) := by
  unfold getWindDirection
  split_ifs <;> first
    | decide
    | (exfalso; linarith)

/-- Witness for C3 at the speeds 4 and 30. -/
theorem getWindDirection_monotone_witness :
    (4 : ℚ) ≤ 30 ∧ labelRank (getWindDirection 4) ≤ labelRank (getWindDirection 30) :=
  ⟨by norm_num, getWindDirection_monotone 4 30 (by norm_num)⟩

/-! ## Dashboard: theorems -/

/-- C4 (as stated) fails: in the state left behind by a failed fetch, a fetch that then
completes successfully leaves the error screen on display, not the dashboard; and from
the initial state a successful fetch whose body is `null` leaves a blank page, and one
whose body is an object without fields makes the markup throw. -/
theorem fetchSuccess_not_always_dashboard :
    render (step (step initialState (.fetchFailure "Weather data fetch failed"))
        (.fetchSuccess (.object sampleSnapshot))) = .errorScreen "Weather data fetch failed" ∧
    render (step initialState (.fetchSuccess .null)) = .blank ∧
    render (step initialState (.fetchSuccess (.object emptyObject))) = .crash ∧
    ¬ (∀ (s : DashboardState) (d : Payload),
        ∃ o, d = .object o ∧ render (step s (.fetchSuccess d)) = .dashboard s.location o) := by
  refine ⟨by decide, by decide, by decide, fun h => ?_⟩
  obtain ⟨o, ho, _⟩ := h initialState .null
  cases ho

/-- C4 (amended): for every dashboard state whose stored error is null or the empty
string, a forecast fetch that completes successfully with a payload that is a complete
forecast object `d` (carrying `current_weather`, `daily` and `hourly` with the arrays the
view reads) stores `d`, clears `loading`, keeps the location, and the view is the
dashboard showing `d` for the current location. -/
theorem fetchSuccess_renders_dashboard (s : DashboardState) (d : ForecastSnapshot)
    (herr : truthy s.error = false) (hd : d.complete = true) :
    (step s (.fetchSuccess (.object d))).weatherData = .object d ∧
    (step s (.fetchSuccess (.object d))).loading = false ∧
    (step s (.fetchSuccess (.object d))).location = s.location ∧
    render (step s (.fetchSuccess (.object d))) = .dashboard s.location d := by
  simp [step, runEffects, fetchWeatherDataResume, applyEffect, render, herr, Payload.truthy,
    dashboardMarkup_of_complete s.location d hd]

/-- Witness for C4 (amended) at the initial state. -/
theorem fetchSuccess_renders_dashboard_witness :
    truthy initialState.error = false ∧ sampleSnapshot.complete = true ∧
    render (step initialState (.fetchSuccess (.object sampleSnapshot))) =
      .dashboard initialState.location sampleSnapshot :=
  ⟨by decide, by decide,
   (fetchSuccess_renders_dashboard initialState sampleSnapshot (by decide) (by decide)).2.2.2⟩

/-- C5 (as stated) fails: a fetch that rejects with the empty error text, from the initial
state, leaves a blank page and not the error screen. -/
theorem fetchFailure_empty_message_renders_blank :
    FailsWith (.rejected "") "" ∧
    render (runEffects initialState (fetchWeatherDataResume (.rejected ""))) = .blank ∧
    render (runEffects initialState (fetchWeatherDataResume (.rejected ""))) ≠
      .errorScreen "" :=
  ⟨Or.inl rfl, by decide, by decide⟩

/-- C5 (amended): for every dashboard state and every forecast fetch failure (non-ok
response, rejected request or rejected body parse) carrying a non-empty error text `m`,
the stored error becomes `m`, `loading` is cleared, and the view is the error screen with
message `m`. -/
theorem fetchFailure_renders_error (s : DashboardState) (fetchResult : FetchResult)
    (m : String) (hfail : FailsWith fetchResult m) (hm : m ≠ "") :
    (runEffects s (fetchWeatherDataResume fetchResult)).error = some m ∧
    (runEffects s (fetchWeatherDataResume fetchResult)).loading = false ∧
    render (runEffects s (fetchWeatherDataResume fetchResult)) = .errorScreen m ∧
    render (runEffects s (fetchWeatherData s.location fetchResult)) = .errorScreen m := by
  rcases hfail with rfl | ⟨body, rfl, rfl⟩ | rfl <;>
    simp [runEffects, fetchWeatherData, fetchWeatherDataStart, fetchWeatherDataResume,
      catchBlock, applyEffect, render, truthy, hm]

/-- Witness for C5 (amended): a body that fails to parse, in a state holding a snapshot. -/
theorem fetchFailure_renders_error_witness :
    FailsWith (.resolved { ok := true, json := .error "Unexpected token" }) "Unexpected token" ∧
    "Unexpected token" ≠ "" ∧
    render (runEffects (step initialState (.fetchSuccess (.object sampleSnapshot)))
      (fetchWeatherDataResume (.resolved { ok := true, json := .error "Unexpected token" }))) =
      .errorScreen "Unexpected token" :=
  ⟨Or.inr (Or.inr rfl), by decide,
   (fetchFailure_renders_error (step initialState (.fetchSuccess (.object sampleSnapshot)))
      (.resolved { ok := true, json := .error "Unexpected token" }) "Unexpected token"
      (Or.inr (Or.inr rfl)) (by decide)).2.2.1⟩

/-- C6: for every dashboard state, a forecast response whose `ok` flag is false is never
parsed, `weatherData` is not written and keeps its value, the stored error becomes the
non-empty text 'Weather data fetch failed', and the view is the error screen. -/
theorem fetchWeatherData_not_ok (s : DashboardState) (location : Location)
    (body : Except String Payload) :
    Effect.parseBody ∉ fetchWeatherData location (.resolved { ok := false, json := body }) ∧
    (∀ d, Effect.setWeatherData d ∉
      fetchWeatherData location (.resolved { ok := false, json := body })) ∧
    (runEffects s (fetchWeatherData location (.resolved { ok := false, json := body }))).weatherData
      = s.weatherData ∧
    (runEffects s (fetchWeatherData location (.resolved { ok := false, json := body }))).error
      = some "Weather data fetch failed" ∧
    "Weather data fetch failed" ≠ "" ∧
    render (runEffects s (fetchWeatherData location (.resolved { ok := false, json := body })))
      = .errorScreen "Weather data fetch failed" := by
  simp [runEffects, fetchWeatherData, fetchWeatherDataStart, fetchWeatherDataResume,
    catchBlock, applyEffect, render, truthy]

/-- C9 (as stated) fails: from the initial state, one fetch failure whose message is empty
reaches the fourth outcome, a blank page (not loading, no truthy error, no payload); so
does one fetch success whose body is `null`; and after a fetch success whose body is an
object without fields no view is rendered at all. -/
theorem run_reaches_blank :
    (render (run initialState [.fetchFailure ""]) = .blank ∧
     (run initialState [.fetchFailure ""]).loading = false ∧
     truthy (run initialState [.fetchFailure ""]).error = false ∧
     (run initialState [.fetchFailure ""]).weatherData = .null) ∧
    (render (run initialState [.fetchStart, .fetchSuccess .null]) = .blank ∧
     (run initialState [.fetchStart, .fetchSuccess .null]).loading = false ∧
     (run initialState [.fetchStart, .fetchSuccess .null]).error = none ∧
     (run initialState [.fetchStart, .fetchSuccess .null]).weatherData = .null) ∧
    render (run initialState [.fetchStart, .fetchSuccess (.object emptyObject)]) = .crash := by
  decide

/-- C9 (amended): in every state reachable from the initial state by location changes,
fetch starts, fetch successes whose payload is a complete forecast object and fetch
failures with a non-empty message, the view is the loading screen, the error screen or
the dashboard, never the blank page, and the markup never throws. -/
theorem reachable_never_blank (events : List Event)
    (hev : events.all wellFormed = true) :
    render (run initialState events) ≠ .blank ∧
    render (run initialState events) ≠ .crash ∧
    (render (run initialState events) = .loadingScreen ∨
     (∃ m, render (run initialState events) = .errorScreen m) ∨
     (∃ l d, render (run initialState events) = .dashboard l d)) := by
  have hv := render_of_shown _ (run_shown events initialState (Or.inl rfl) hev)
  refine ⟨?_, ?_, hv⟩
  · rcases hv with h | ⟨m, h⟩ | ⟨l, d, h⟩ <;> rw [h] <;> exact fun hc => by cases hc
  · rcases hv with h | ⟨m, h⟩ | ⟨l, d, h⟩ <;> rw [h] <;> exact fun hc => by cases hc

/-- Witness for C9 (amended): a failed fetch followed by a search and a successful fetch. -/
theorem reachable_never_blank_witness :
    [Event.fetchStart, .fetchFailure "Failed to fetch", .locationChange paris, .fetchStart,
      .fetchSuccess (.object sampleSnapshot)].all wellFormed = true ∧
    render (run initialState [.fetchStart, .fetchFailure "Failed to fetch",
      .locationChange paris, .fetchStart, .fetchSuccess (.object sampleSnapshot)]) ≠ .blank :=
  ⟨by decide,
   (reachable_never_blank [.fetchStart, .fetchFailure "Failed to fetch",
      .locationChange paris, .fetchStart, .fetchSuccess (.object sampleSnapshot)]
      (by decide)).1⟩

/-- C10: the stored error is never cleared. From any state whose error is a non-empty
message, after any sequence of location changes, fetch starts, fetch successes and fetch
failures with a non-empty message, the error is still not null and still non-empty, and
the view is the loading screen or the error screen, never the dashboard. -/
theorem error_is_sticky (s : DashboardState) (events : List Event)
    (herr : truthy s.error = true) (hev : events.all nonEmptyFailure = true) :
    (run s events).error ≠ none ∧
    truthy (run s events).error = true ∧
    (render (run s events) = .loadingScreen ∨ ∃ m, render (run s events) = .errorScreen m) ∧
    (∀ l d, render (run s events) ≠ .dashboard l d) := by
  have ht := run_error_truthy events s herr hev
  have hr := render_of_error_truthy _ ht
  refine ⟨?_, ht, ?_, ?_⟩
  · intro hnone
    rw [hnone] at ht
    simp [truthy] at ht
  · rcases hr with h | h
    · exact Or.inl h
    · exact Or.inr ⟨_, h⟩
  · intro l d hd
    rcases hr with h | h <;> rw [h] at hd <;> cases hd

/-- Witness for C10: after a failed fetch, a search for a new location whose fetch
succeeds still shows the error screen. -/
theorem error_is_sticky_witness :
    truthy (step initialState (.fetchFailure "Weather data fetch failed")).error = true ∧
    [Event.locationChange paris, .fetchStart, .fetchSuccess (.object sampleSnapshot)].all
      nonEmptyFailure = true ∧
    ∀ l d, render (run (step initialState (.fetchFailure "Weather data fetch failed"))
      [.locationChange paris, .fetchStart, .fetchSuccess (.object sampleSnapshot)]) ≠ .dashboard l d :=
  ⟨by decide, by decide,
   (error_is_sticky (step initialState (.fetchFailure "Weather data fetch failed"))
      [.locationChange paris, .fetchStart, .fetchSuccess (.object sampleSnapshot)]
      (by decide) (by decide)).2.2.2⟩

/-! ## Location search: theorems -/

/-- C7: for every dashboard state and every geocoding outcome that is not a match (no
`results` field, an empty `results`, or a rejected request or parse), `handleSubmit` never
calls `onLocationChange`, the dashboard runs no effect (so no forecast request), and
its whole state is left as it was. -/
theorem handleSubmit_no_match (s : DashboardState) (city : String) (outcome : GeoOutcome)
    (hno : NoMatch outcome) :
    (∀ l, SubmitEffect.onLocationChange l ∉ handleSubmit city outcome) ∧
    submitEffects city outcome = [] ∧
    (∀ latitude longitude, Effect.fetchForecast latitude longitude ∉
      submitEffects city outcome) ∧
    runEffects s (submitEffects city outcome) = s := by
  rcases hno with rfl | rfl | ⟨err, rfl⟩ | ⟨err, rfl⟩ <;>
    simp [handleSubmit, submitEffects, dashboardReaction, runEffects]

/-- Witness for C7: the query "Qwxyzzz" with an empty `results`. -/
theorem handleSubmit_no_match_witness :
    NoMatch (.parsed { results := some [] }) ∧
    runEffects initialState (submitEffects "Qwxyzzz" (.parsed { results := some [] })) =
      initialState :=
  ⟨Or.inr (Or.inl rfl),
   (handleSubmit_no_match initialState "Qwxyzzz" (.parsed { results := some [] })
      (Or.inr (Or.inl rfl))).2.2.2⟩

/-- C8: for every geocoding response whose `results` is non-empty, `handleSubmit` calls
`onLocationChange` once, with exactly the latitude, longitude and name of `results[0]`,
and the dashboard location becomes that object, whatever the typed text, the later
elements of the list and the previous location. -/
theorem handleSubmit_first_result (s : DashboardState) (city : String) (r : GeoResult)
    (rest : List GeoResult) :
    handleSubmit city (.parsed { results := some (r :: rest) }) =
      [.geocode city,
       .onLocationChange { latitude := r.latitude, longitude := r.longitude, name := r.name }] ∧
    (runEffects s (submitEffects city (.parsed { results := some (r :: rest) }))).location =
      { latitude := r.latitude, longitude := r.longitude, name := r.name } := by
  simp [handleSubmit, submitEffects, dashboardReaction, runEffects, handleLocationChange,
    fetchWeatherDataStart, applyEffect]

end WeatherWebsite
